import Mathlib

/-! ModSecurity for Apache 2.x: `apache2/apache2_util.c`

A shallow embedding of the logging, checkpoint, error-message formatting and
command-execution helpers of `apache2_util.c`, followed by theorems about them.

Conventions of the embedding:

* C strings are lists of characters, one character per byte (`Str`); a `char *`
  that may be `NULL` is an `Option Str`.
* Every call into Apache/APR that has an effect outside the transaction record
  is recorded, in program order, as an `Event`.  A function of the embedding
  returns the events it emitted together with the data it changed.
* Results of Apache/APR calls that the C code only observes (allocation
  results, process creation status, pipe reads, the clock) are inputs.
* Functions and constants of ModSecurity that live in other files
  (`log_escape`, `log_escape_nq`, `current_logtime`, `NOT_SET`) are fields of
  `Host`, so every theorem holds whatever they are.
-/

set_option autoImplicit false

namespace ModSecurity

/-! ## Strings and formatting -/

/-- Bytes of a C `char` buffer, one `Char` per byte. -/
abbrev Str := List Char

/-- The terminating byte of a C string. -/
def NUL : Char := Char.ofNat 0

/-- The line terminator `0x0a`. -/
def LF : Char := Char.ofNat 10

/-- The double quote character, `0x22`. -/
def DQ : Char := Char.ofNat 34

/-- What a buffer holds when read as a C string: the bytes before the first
NUL (`strlen`, `apr_pstrdup` and `%s` all stop there). -/
def cstr (buf : Str) : Str := buf.takeWhile (fun c => c != NUL)

/-- Text that `apr_snprintf(buf, size, ...)` / `apr_vsnprintf` leaves in `buf`
when the unbounded rendering of the format is `rendered`: at most `size - 1`
bytes are stored and a NUL follows them. -/
def apr_snprintf (size : Nat) (rendered : Str) : Str := cstr (rendered.take (size - 1))

/-- Rendering of a `%s` argument; APR prints `(null)` for a `NULL` pointer. -/
def fmt_s : Option Str → Str
  | some s => cstr s
  | none => "(null)".toList

/-- Rendering of a `%d` (or `%lu`, `%lld`) argument: signed decimal. -/
def fmt_d (i : Int) : Str := (Int.repr i).toList

/-! ## APR tables -/

/-- An `apr_table_t`: entries in insertion order, duplicates allowed. -/
abbrev apr_table_t := List (Str × Str)

/-- ASCII lower-casing, as used by the key comparison of APR tables. -/
def ascii_lower (c : Char) : Char :=
  if 65 ≤ c.toNat ∧ c.toNat ≤ 90 then Char.ofNat (c.toNat + 32) else c

/-- Case-insensitive key comparison (`strcasecmp(a, b) == 0`). -/
def key_eq (a b : Str) : Bool := a.map ascii_lower == b.map ascii_lower

/-- Model of `apr_table_get`: value of the first entry whose key matches. -/
def apr_table_get (t : apr_table_t) (key : Str) : Option Str :=
  (t.find? (fun e => key_eq e.1 key)).map (fun e => e.2)

/-- Model of `apr_table_add`: appends an entry, whatever the table holds. -/
def apr_table_add (t : apr_table_t) (key val : Str) : apr_table_t := t ++ [(key, val)]

/-- Replaces the value of the first entry matching `key` and drops the later
entries with that key. -/
def table_replace (key val : Str) : apr_table_t → apr_table_t
  | [] => []
  | e :: rest =>
    if key_eq e.1 key then (e.1, val) :: rest.filter (fun x => !key_eq x.1 key)
    else e :: table_replace key val rest

/-- Model of `apr_table_set`: overwrites the entry for `key` when there is one,
appends otherwise. -/
def apr_table_set (t : apr_table_t) (key val : Str) : apr_table_t :=
  if t.any (fun e => key_eq e.1 key) then table_replace key val t
  else t ++ [(key, val)]

/-! ## Records -/

/-- Value of the `debuglog_fd` pointer of a `directory_config`. -/
inductive fd_ptr where
  | NULL
  | NOT_SET_P
  | file (id : Nat)
  deriving DecidableEq

/-- Fields of `directory_config` used by this file. -/
structure directory_config where
  debuglog_fd : fd_ptr
  debuglog_level : Int
  deriving DecidableEq

/-- Fields of `request_rec` (and of the records it points to) used by this
file.  `server_name` is `ap_get_server_name(r)`, `server_ptr` and `self_ptr`
are the `%pp` renderings of `r->server` and `r`, `remote_ip` is
`r->connection->remote_ip` and `server_timeout` is `r->server->timeout`. -/
structure request_rec where
  uri : Option Str
  hostname : Option Str
  server_name : Option Str
  server_ptr : Str
  self_ptr : Str
  remote_ip : Option Str
  status_line : Option Str
  subprocess_env : apr_table_t
  notes : apr_table_t
  server_timeout : Int
  deriving DecidableEq

/-- Fields of `modsec_rec` used by this file.  `txcfg` is dereferenced without
a check at lines 116, 154 and 206, so a transaction always has one; `r` is the
request the transaction points to.  `is_relevant` starts at 0 and is only ever
incremented, so it is a natural number. -/
structure modsec_rec where
  r : request_rec
  txcfg : directory_config
  is_relevant : Nat
  alerts : List Str
  request_time : Int
  time_checkpoint_1 : Int
  time_checkpoint_2 : Int
  time_checkpoint_3 : Int
  deriving DecidableEq

/-- The `error_message` record; `file` and `message` may be `NULL`. -/
structure error_message where
  file : Option Str
  line : Int
  level : Int
  status : Int
  message : Option Str
  deriving DecidableEq

/-- Effects on the world outside the transaction record, one constructor per
Apache/APR call that has one. -/
inductive Event where
  | file_write_full (fd : Nat) (data : Str)
  | log_error (msg : Str)
  | proc_create (command : Str) (argv : List Str) (env : List Str)
  | pool_note_subprocess
  | file_pipe_timeout_set (timeout : Int)
  | procattr_io_set
  | procattr_cmdtype_set
  | file_read
  | proc_wait
  | pass_brigade (status : Int)
  deriving DecidableEq

/-- What the rest of ModSecurity and the platform provide to this file. -/
structure Host where
  /-- The `NOT_SET` marker of an unset integer directive. -/
  NOT_SET : Int
  /-- The function `log_escape` of `msc_util.c` (quotes escaped). -/
  log_escape : Option Str → Option Str
  /-- The function `log_escape_nq` of `msc_util.c` (quotes kept). -/
  log_escape_nq : Option Str → Option Str
  /-- The function `current_logtime`: the timestamp of a debug log line. -/
  current_logtime : Option Str
  /-- The process environment read by `getenv`. -/
  environ : List (Str × Str)
  /-- Text of `apr_strerror` for a status, as stored by `get_apr_error`. -/
  apr_strerror : Int → Str
  /-- Text of `ap_get_status_line` for an HTTP status. -/
  ap_get_status_line : Int → Option Str
  /-- Effect of `ap_add_cgi_vars` on the subprocess environment table. -/
  ap_add_cgi_vars : apr_table_t → apr_table_t
  /-- Effect of `ap_add_common_vars` on the subprocess environment table. -/
  ap_add_common_vars : apr_table_t → apr_table_t
  /-- Result of `ap_create_environment` for a table; `none` is `NULL`. -/
  ap_create_environment : apr_table_t → Option (List Str)
  /-- The value of `sizeof(apr_proc_t)`. -/
  sizeof_proc : Nat

/-! ## `get_apr_error`, `get_env_var` -/

/-- Model of `get_apr_error`: the error text, bounded by the 200-byte buffer. -/
def get_apr_error (h : Host) (rc : Int) : Option Str :=
  some (apr_snprintf 200 (h.apr_strerror rc))

/-- Model of `getenv`: exact, case-sensitive lookup in the process environment. -/
def getenv (h : Host) (name : Str) : Option Str :=
  (h.environ.find? (fun e => e.1 == name)).map (fun e => e.2)

/-- Model of `get_env_var`: notes, then subprocess environment, then the
process environment. -/
def get_env_var (h : Host) (r : request_rec) (name : Str) : Option Str :=
  match apr_table_get r.notes name with
  | some v => some v
  | none =>
    match apr_table_get r.subprocess_env name with
    | some v => some v
    | none => getenv h name

/-! ## The logger: `internal_log`, `msr_log` -/

/-- The `debuglog_fd` local of `internal_log` after lines 252-257: the
configured descriptor, or `none` (`NULL`) when there is no configuration or
the pointer is `NULL` or `NOT_SET_P`. -/
def debuglog_fd_of (dcfg : Option directory_config) : Option Nat :=
  match dcfg with
  | none => none
  | some d =>
    match d.debuglog_fd with
    | fd_ptr.file id => some id
    | _ => none

/-- The `filter_debug_level` local of `internal_log` after lines 252-257. -/
def filter_debug_level (h : Host) (dcfg : Option directory_config) : Int :=
  match dcfg with
  | none => 0
  | some d => if d.debuglog_level ≠ h.NOT_SET then d.debuglog_level else 0

/-- The buffer `str1` of `internal_log` (line 266); `text` is the unbounded
rendering of the caller's format and arguments. -/
def log_str1 (text : Str) : Str := apr_snprintf 1024 text

/-- Unbounded rendering of the format of line 267:
`[%s] [%s/sid#%pp][rid#%pp][%s][%d] %s\n`. -/
def debug_line_rendered (h : Host) (r : request_rec) (level : Int) (str1 : Str) : Str :=
  "[".toList ++ fmt_s h.current_logtime ++ "] [".toList ++ fmt_s r.server_name
    ++ "/sid#".toList ++ r.server_ptr ++ "][rid#".toList ++ r.self_ptr ++ "][".toList
    ++ (match r.uri with
        | none => []
        | some u => fmt_s (h.log_escape_nq (some u)))
    ++ "][".toList ++ fmt_d level ++ "] ".toList ++ str1 ++ [LF]

/-- The buffer `str2` of `internal_log` (line 267). -/
def log_str2 (h : Host) (r : request_rec) (level : Int) (str1 : Str) : Str :=
  apr_snprintf 1256 (debug_line_rendered h r level str1)

/-- The message handed to `ap_log_error` at lines 295-297:
`[client %s] ModSecurity: %s%s [uri "%s"]%s`. -/
def error_log_line (h : Host) (r : request_rec) (str1 : Str) : Str :=
  let unique_id : Str :=
    match get_env_var h r "UNIQUE_ID".toList with
    | some u => " [unique_id ".toList ++ [DQ] ++ fmt_s (h.log_escape (some u)) ++ [DQ] ++ "]".toList
    | none => []
  let hostname : Str :=
    match r.hostname with
    | some n => " [hostname ".toList ++ [DQ] ++ fmt_s (h.log_escape (some n)) ++ [DQ] ++ "]".toList
    | none => []
  "[client ".toList ++ fmt_s r.remote_ip ++ "] ModSecurity: ".toList ++ str1 ++ hostname
    ++ " [uri ".toList ++ [DQ] ++ fmt_s (h.log_escape r.uri) ++ [DQ] ++ "]".toList ++ unique_id

/-- Model of `internal_log`.  `text` is the rendering of the format with its
arguments.  Returns the transaction record after the call and the events of
the call.  The record is dereferenced at line 268 (`msr->mp`), so the test
`msr != NULL` of line 300 holds whenever it is reached. -/
def internal_log (h : Host) (r : request_rec) (dcfg : Option directory_config)
    (msr : modsec_rec) (level : Int) (text : Str) : modsec_rec × List Event :=
  let debuglog_fd := debuglog_fd_of dcfg
  let filter := filter_debug_level h dcfg
  if level > 3 ∧ (debuglog_fd = none ∨ level > filter) then (msr, [])
  else
    let str1 := log_str1 text
    let str2 := log_str2 h r level str1
    let written : List Event :=
      match debuglog_fd with
      | some fd => if level ≤ filter then [Event.file_write_full fd str2] else []
      | none => []
    if level ≤ 3 then
      ({ msr with is_relevant := msr.is_relevant + 1, alerts := msr.alerts ++ [cstr str1] },
        written ++ [Event.log_error (error_log_line h r str1)])
    else (msr, written)

/-- Model of `msr_log`: `internal_log` on the transaction's own request and
configuration. -/
def msr_log (h : Host) (msr : modsec_rec) (level : Int) (text : Str) : modsec_rec × List Event :=
  internal_log h msr.r (some msr.txcfg) msr level text

/-- The writes to the debug log among a list of events. -/
def debug_writes (evs : List Event) : List Str :=
  evs.filterMap (fun e => match e with
    | Event.file_write_full _ d => some d
    | _ => none)

/-- The lines sent to the Apache error log among a list of events. -/
def error_lines (evs : List Event) : List Str :=
  evs.filterMap (fun e => match e with
    | Event.log_error m => some m
    | _ => none)

/-! ## `record_time_checkpoint` -/

/-- The `switch` of lines 185-199: the record with checkpoint `checkpoint_no`
set to `now`, or `none` on the `default` branch. -/
def store_checkpoint (msr : modsec_rec) (checkpoint_no : Int) (now : Int) : Option modsec_rec :=
  if checkpoint_no = 1 then some { msr with time_checkpoint_1 := now }
  else if checkpoint_no = 2 then some { msr with time_checkpoint_2 := now }
  else if checkpoint_no = 3 then some { msr with time_checkpoint_3 := now }
  else none

/-- The buffer `note` of line 202: decimal text of `now - msr->request_time`. -/
def checkpoint_note (msr : modsec_rec) (now : Int) : Str :=
  apr_snprintf 99 (fmt_d (now - msr.request_time))

/-- The buffer `note_name` of line 203. -/
def checkpoint_note_name (checkpoint_no : Int) : Str :=
  apr_snprintf 99 ("mod_security-time".toList ++ fmt_d checkpoint_no)

/-- Model of `record_time_checkpoint`; `now` is the value of `apr_time_now()`. -/
def record_time_checkpoint (h : Host) (msr : modsec_rec) (checkpoint_no : Int) (now : Int) :
    modsec_rec × List Event :=
  match store_checkpoint msr checkpoint_no now with
  | none =>
    msr_log h msr 1 ("Internal Error: Unknown checkpoint: ".toList ++ fmt_d checkpoint_no)
  | some m =>
    let note := checkpoint_note m now
    let note_name := checkpoint_note_name checkpoint_no
    let m2 := { m with r := { m.r with notes := apr_table_set m.r.notes note_name note } }
    if m2.txcfg.debuglog_level ≥ 4 then
      msr_log h m2 4 ("Time #".toList ++ fmt_d checkpoint_no ++ ": ".toList ++ fmt_s (some note))
    else (m2, [])

/-- Reads stored checkpoint `n` (1, 2 or 3) of a transaction record. -/
def time_checkpoint (msr : modsec_rec) (n : Int) : Option Int :=
  if n = 1 then some msr.time_checkpoint_1
  else if n = 2 then some msr.time_checkpoint_2
  else if n = 3 then some msr.time_checkpoint_3
  else none

/-! ## `format_error_log_message` -/

/-- Model of `format_error_log_message`; `none` is `NULL`.  `apr_psprintf`
allocates from the pool and is taken to succeed. -/
def format_error_log_message (h : Host) (em : Option error_message) : Option Str :=
  match em with
  | none => none
  | some em =>
    let s_file : Str :=
      match em.file with
      | some f => "[file ".toList ++ [DQ] ++ fmt_s (h.log_escape (some f)) ++ [DQ] ++ "] ".toList
      | none => []
    let s_line : Str := if em.line > 0 then "[line ".toList ++ fmt_d em.line ++ "] ".toList else []
    let s_level : Str := "[level ".toList ++ fmt_d em.level ++ "] ".toList
    let s_status : Str :=
      if em.status ≠ 0 then "[status ".toList ++ fmt_d em.status ++ "] ".toList else []
    match em.message with
    | none => some (s_file ++ s_line ++ s_level ++ s_status ++ [])
    | some m =>
      match h.log_escape_nq (some m) with
      | none => none
      | some s_message => some (s_file ++ s_line ++ s_level ++ s_status ++ cstr s_message)

/-! ## `apache2_exec` -/

/-- The status `APR_SUCCESS`. -/
def APR_SUCCESS : Int := 0

/-- The status `APR_EOF` (`APR_OS_START_STATUS + 14`). -/
def APR_EOF : Int := 70014

/-- The status `APR_EGENERAL` (`APR_OS_START_ERROR + 14`). -/
def APR_EGENERAL : Int := 20014

/-- What APR reports to one run of `apache2_exec`. -/
structure exec_results where
  /-- Whether `apr_pcalloc` at line 101 returned a record. -/
  procnew : Bool
  /-- Whether `apr_procattr_create` stored an attribute record. -/
  procattr : Bool
  /-- Status returned by `apr_proc_create`. -/
  proc_create_rc : Int
  /-- Whether `procnew->out` is a pipe handle. -/
  script_out : Bool
  /-- Status and bytes stored by the successive `apr_file_read` calls on the
  pipe; once the list is used up the pipe is at end of file. -/
  reads : List (Int × Str)

/-- One `apr_file_read(script_out, buf, &nbytes)` with `nbytes = 255`: status,
the bytes stored (at most 255) and the reads that remain. -/
def apr_file_read (reads : List (Int × Str)) : Int × Str × List (Int × Str) :=
  match reads with
  | [] => (APR_EOF, [], [])
  | (rc, data) :: rest => (rc, data.take 255, rest)

/-- The 260-byte buffer `buf`, initially all zero, after a read stored `data`
at its start and line 146 wrote the terminator. -/
def exec_buf (data : Str) : Str := data ++ List.replicate (260 - data.length) NUL

/-- The loop of lines 149-152 from position `p`: walks to the first NUL and
overwrites every `0x0a` on the way with NUL. -/
def strip_lines : Str → Str
  | [] => []
  | c :: rest => if c = NUL then c :: rest else (if c = LF then NUL else c) :: strip_lines rest

/-- The string duplicated into `*output` at line 159 when the first read
stored `data`. -/
def first_line (data : Str) : Str := cstr (strip_lines (exec_buf data))

/-- The loop of line 163: reads until a read does not succeed. -/
def soak_up : List (Int × Str) → List Event
  | [] => [Event.file_read]
  | (rc, _) :: rest => if rc = APR_SUCCESS then Event.file_read :: soak_up rest else [Event.file_read]

/-- Result of `apache2_exec`: the return value, the caller's `*output` slot
(`none` when the caller passed no `output` pointer), the transaction record
and the events of the call. -/
structure exec_outcome where
  ret : Int
  output : Option (Option Str)
  msr : modsec_rec
  events : List Event

/-- The subprocess environment table after lines 88-93. -/
def exec_subprocess_env (h : Host) (command : Str) (env : apr_table_t) : apr_table_t :=
  apr_table_add
    (apr_table_add (h.ap_add_common_vars (h.ap_add_cgi_vars env)) "PATH_TRANSLATED".toList command)
    "REDIRECT_STATUS".toList "302".toList

/-- Model of `apache2_exec`.  `output` is the caller's slot: `none` when the
pointer is `NULL`, `some v` when it points to a variable holding `v`. -/
def apache2_exec (h : Host) (x : exec_results) (msr : modsec_rec) (command : Str)
    (argv : Option (List Str)) (output : Option (Option Str)) : exec_outcome :=
  let argv : List Str :=
    match argv with
    | none => [command]
    | some a => a
  let r := { msr.r with subprocess_env := exec_subprocess_env h command msr.r.subprocess_env }
  let msr := { msr with r := r }
  match h.ap_create_environment r.subprocess_env with
  | none =>
    let l := msr_log h msr 1 "Exec: Unable to create environment.".toList
    { ret := -1, output := output, msr := l.1, events := l.2 }
  | some env =>
    if ¬ x.procnew then
      let l := msr_log h msr 1
        ("Exec: Unable to allocate ".toList ++ fmt_d h.sizeof_proc ++ " bytes.".toList)
      { ret := -1, output := output, msr := l.1, events := l.2 }
    else if ¬ x.procattr then
      let l := msr_log h msr 1 "Exec: Unable to create procattr.".toList
      { ret := -1, output := output, msr := l.1, events := l.2 }
    else
      let ev0 := [Event.procattr_io_set, Event.procattr_cmdtype_set]
      let l9 :=
        if msr.txcfg.debuglog_level ≥ 9 then
          msr_log h msr 9 ("Exec: ".toList ++ fmt_s (h.log_escape_nq (some command)))
        else (msr, [])
      let msr := l9.1
      let ev1 := ev0 ++ l9.2 ++ [Event.proc_create command argv env]
      if x.proc_create_rc ≠ APR_SUCCESS then
        let l := msr_log h msr 1
          ("Exec: Execution failed: ".toList ++ fmt_s (h.log_escape_nq (some command))
            ++ " (".toList ++ fmt_s (get_apr_error h x.proc_create_rc) ++ ")".toList)
        { ret := -1, output := output, msr := l.1, events := ev1 ++ l.2 }
      else
        let ev2 := ev1 ++ [Event.pool_note_subprocess]
        if ¬ x.script_out then
          let l := msr_log h msr 1 "Exec: Failed to get script output pipe.".toList
          { ret := -1, output := output, msr := l.1, events := ev2 ++ l.2 }
        else
          let ev3 := ev2 ++ [Event.file_pipe_timeout_set r.server_timeout, Event.file_read]
          let rd := apr_file_read x.reads
          if rd.1 = APR_SUCCESS then
            let buf := first_line rd.2.1
            let l4 :=
              if msr.txcfg.debuglog_level ≥ 4 then
                msr_log h msr 4 ("Exec: First line from script output: ".toList ++ [DQ]
                  ++ fmt_s (h.log_escape (some buf)) ++ [DQ])
              else (msr, [])
            let output :=
              match output with
              | none => none
              | some _ => some (some buf)
            { ret := 1, output := output, msr := l4.1,
              events := ev3 ++ l4.2 ++ soak_up rd.2.2 ++ [Event.proc_wait] }
          else
            let l := msr_log h msr 1
              ("Exec: Execution failed while reading output: ".toList
                ++ fmt_s (h.log_escape_nq (some command))
                ++ " (".toList ++ fmt_s (get_apr_error h rd.1) ++ ")".toList)
            { ret := -1, output := output, msr := l.1, events := ev3 ++ l.2 }

/-! ## `send_error_bucket` -/

/-- What the bucket allocations of `send_error_bucket` return: whether the
brigade, the error bucket and the end-of-stream bucket were created. -/
structure bucket_results where
  brigade : Bool
  error_bucket : Bool
  eos_bucket : Bool

/-- Result of `send_error_bucket`: the return value, the transaction record
(`none` when the caller passed `NULL`), the filter's request and the events. -/
structure bucket_outcome where
  ret : Int
  msr : Option modsec_rec
  r : request_rec
  events : List Event

/-- Model of `send_error_bucket`; `fr` is the request `f->r` of the filter. -/
def send_error_bucket (h : Host) (b : bucket_results) (msr : Option modsec_rec)
    (fr : request_rec) (status : Int) : bucket_outcome :=
  let fr := { fr with status_line := h.ap_get_status_line status }
  let l : Option modsec_rec × List Event :=
    match msr with
    | none => (none, [])
    | some m =>
      if m.is_relevant = 0 then
        let o := msr_log h m 1 ("Internal error: Issuing ".toList ++ [DQ] ++ fmt_s fr.status_line
          ++ [DQ] ++ " for unspecified error.".toList)
        (some o.1, o.2)
      else (some m, [])
  if ¬ b.brigade then { ret := APR_EGENERAL, msr := l.1, r := fr, events := l.2 }
  else if ¬ b.error_bucket then { ret := APR_EGENERAL, msr := l.1, r := fr, events := l.2 }
  else if ¬ b.eos_bucket then { ret := APR_EGENERAL, msr := l.1, r := fr, events := l.2 }
  else { ret := APR_EGENERAL, msr := l.1, r := fr, events := l.2 ++ [Event.pass_brigade status] }

/-! ## Sample inputs -/

/-- A host whose escaping functions return their argument and whose
`ap_add_cgi_vars` and `ap_add_common_vars` add nothing. -/
def sample_host : Host where
  NOT_SET := -1
  log_escape := fun s => s
  log_escape_nq := fun s => s
  current_logtime := some "t".toList
  environ := []
  apr_strerror := fun _ => "failure".toList
  ap_get_status_line := fun _ => some "500 Internal Server Error".toList
  ap_add_cgi_vars := fun t => t
  ap_add_common_vars := fun t => t
  ap_create_environment := fun t => some (t.map (fun e => e.1 ++ '=' :: e.2))
  sizeof_proc := 64

/-- A request for `/index` with one variable in its subprocess environment. -/
def sample_request : request_rec where
  uri := some "/index".toList
  hostname := none
  server_name := some "www".toList
  server_ptr := "1f".toList
  self_ptr := "2e".toList
  remote_ip := some "10.0.0.1".toList
  status_line := none
  subprocess_env := [("HOME".toList, "/".toList)]
  notes := []
  server_timeout := 30

/-- A configuration with debug log descriptor 7 and the given debug level. -/
def sample_config (level : Int) : directory_config where
  debuglog_fd := fd_ptr.file 7
  debuglog_level := level

/-- A fresh transaction on `sample_request`, started at time 100. -/
def sample_msr (level : Int) : modsec_rec where
  r := sample_request
  txcfg := sample_config level
  is_relevant := 0
  alerts := []
  request_time := 100
  time_checkpoint_1 := 0
  time_checkpoint_2 := 0
  time_checkpoint_3 := 0

/-- APR results of a run in which every step succeeds up to the reads, which
are `reads`. -/
def sample_exec (reads : List (Int × Str)) : exec_results where
  procnew := true
  procattr := true
  proc_create_rc := APR_SUCCESS
  script_out := true
  reads := reads

/-! ## Views of an event list -/

/-- The events of a run that are not log output: the APR calls on the child
process and its pipe, and the brigade passed down the filter chain. -/
def step_events (evs : List Event) : List Event :=
  evs.filter (fun e => match e with
    | Event.file_write_full _ _ => false
    | Event.log_error _ => false
    | _ => true)

/-- What one log call with the given severity and text adds to the debug log
of configuration `dcfg`: the line `str2` when a descriptor is configured and
the severity is at most the debug level, nothing otherwise. -/
def debug_line (h : Host) (r : request_rec) (dcfg : Option directory_config) (level : Int)
    (text : Str) : List Str :=
  if (debuglog_fd_of dcfg).isSome ∧ level ≤ filter_debug_level h dcfg
  then [log_str2 h r level (log_str1 text)] else []

/-! ## Statement vocabulary for the command runner -/

/-- The transaction record once lines 88-93 of `apache2_exec` have run: the
request's subprocess environment has been extended. -/
def exec_msr (h : Host) (command : Str) (msr : modsec_rec) : modsec_rec :=
  { msr with r := { msr.r with
      subprocess_env := exec_subprocess_env h command msr.r.subprocess_env } }

/-- What the severity-9 call of line 117 adds to the debug log: nothing when
the configured level is below 9. -/
def exec_trace (h : Host) (command : Str) (msr : modsec_rec) : List Str :=
  if msr.txcfg.debuglog_level ≥ 9 then
    debug_line h (exec_msr h command msr).r (some msr.txcfg) 9
      ("Exec: ".toList ++ fmt_s (h.log_escape_nq (some command)))
  else []

/-- A run `res` of `apache2_exec` on record `msr` and slot `output` failed
with message `msg`: it returned -1, left the slot as it was, sent exactly one
line, for `msg`, to the Apache error log, recorded `msg` as one more alert,
ran exactly the APR calls `steps`, and wrote to the debug log `trace`
followed by what a severity-1 call for `msg` writes there. -/
def exec_failed_with (h : Host) (command : Str) (msr : modsec_rec)
    (output : Option (Option Str)) (res : exec_outcome) (msg : Str) (steps : List Event)
    (trace : List Str) : Prop :=
  res.ret = -1
    ∧ res.output = output
    ∧ error_lines res.events = [error_log_line h (exec_msr h command msr).r (log_str1 msg)]
    ∧ res.msr.alerts = msr.alerts ++ [log_str1 msg]
    ∧ res.msr.is_relevant = msr.is_relevant + 1
    ∧ step_events res.events = steps
    ∧ debug_writes res.events
        = trace ++ debug_line h (exec_msr h command msr).r (some msr.txcfg) 1 msg

/-- APR results of a run whose `apr_proc_create` returns status 1. -/
def sample_spawn_failure : exec_results where
  procnew := true
  procattr := true
  proc_create_rc := 1
  script_out := true
  reads := []

/-- An error message with every field present. -/
def sample_em : error_message where
  file := some "core.c".toList
  line := 10
  level := 2
  status := 403
  message := some "Access denied".toList

/-- The sample request with a path of 1300 bytes. -/
def sample_long_request : request_rec :=
  { sample_request with uri := some (List.replicate 1300 'a') }

/-! ## Lemmas on strings -/

theorem cstr_idem (s : Str) : cstr (cstr s) = cstr s := by
  unfold cstr
  induction s with
  | nil => rfl
  | cons c rest ih =>
    by_cases hc : (c != NUL) = true
    · simp [List.takeWhile_cons, hc]
      simpa using ih
    · simp [List.takeWhile_cons, hc]

theorem log_str1_cstr (text : Str) : cstr (log_str1 text) = log_str1 text := by
  unfold log_str1 apr_snprintf
  exact cstr_idem _

/-! ## The logger -/

/-- C1: a log call with severity above 3 for which no debug log is configured,
or whose severity is above the configured debug level, returns at once: it
emits no event at all (so nothing is written to the debug log and nothing is
sent to the Apache error log) and the transaction record is the one it was
given, in particular `is_relevant` and `alerts`. -/
theorem internal_log_suppressed (h : Host) (r : request_rec) (dcfg : Option directory_config)
    (msr : modsec_rec) (level : Int) (text : Str) (hs : 3 < level)
    (hq : debuglog_fd_of dcfg = none ∨ filter_debug_level h dcfg < level) :
    (internal_log h r dcfg msr level text).2 = []
      ∧ debug_writes (internal_log h r dcfg msr level text).2 = []
      ∧ error_lines (internal_log h r dcfg msr level text).2 = []
      ∧ (internal_log h r dcfg msr level text).1 = msr
      ∧ (internal_log h r dcfg msr level text).1.is_relevant = msr.is_relevant
      ∧ (internal_log h r dcfg msr level text).1.alerts = msr.alerts := by
  have e : internal_log h r dcfg msr level text = (msr, []) := by
    unfold internal_log
    simp only []
    rw [if_pos]
    exact ⟨hs, hq⟩
  rw [e]
  exact ⟨rfl, rfl, rfl, rfl, rfl, rfl⟩

/-- Severity 5 against a debug log configured at level 4. -/
theorem internal_log_suppressed_witness :
    (internal_log sample_host sample_request (some (sample_config 4)) (sample_msr 4) 5
        "detail".toList).2 = []
      ∧ debug_writes (internal_log sample_host sample_request (some (sample_config 4))
          (sample_msr 4) 5 "detail".toList).2 = []
      ∧ error_lines (internal_log sample_host sample_request (some (sample_config 4))
          (sample_msr 4) 5 "detail".toList).2 = []
      ∧ (internal_log sample_host sample_request (some (sample_config 4)) (sample_msr 4) 5
          "detail".toList).1 = sample_msr 4
      ∧ (internal_log sample_host sample_request (some (sample_config 4)) (sample_msr 4) 5
          "detail".toList).1.is_relevant = (sample_msr 4).is_relevant
      ∧ (internal_log sample_host sample_request (some (sample_config 4)) (sample_msr 4) 5
          "detail".toList).1.alerts = (sample_msr 4).alerts :=
  internal_log_suppressed sample_host sample_request (some (sample_config 4)) (sample_msr 4) 5
    "detail".toList (by decide) (Or.inr (by decide))

/-- C2: a log call with severity at most 3 sends exactly one line to the
Apache error log, whatever the debug log configuration is, adds exactly 1 to
`is_relevant`, and appends exactly one entry, the rendered body `str1`, at the
end of `alerts`, the earlier alerts staying in place and in order. -/
theorem internal_log_alert (h : Host) (r : request_rec) (dcfg : Option directory_config)
    (msr : modsec_rec) (level : Int) (text : Str) (hs : level ≤ 3) :
    error_lines (internal_log h r dcfg msr level text).2 = [error_log_line h r (log_str1 text)]
      ∧ (internal_log h r dcfg msr level text).1.is_relevant = msr.is_relevant + 1
      ∧ (internal_log h r dcfg msr level text).1.alerts = msr.alerts ++ [log_str1 text] := by
  have hn : ¬ (level > 3) := by omega
  unfold internal_log
  simp only [hn, false_and, if_false, hs, if_true, log_str1_cstr]
  refine ⟨?_, trivial, trivial⟩
  cases debuglog_fd_of dcfg with
  | none => simp [error_lines]
  | some fd =>
    by_cases hl : level ≤ filter_debug_level h dcfg <;> simp [error_lines, hl]

/-- Severity 2 on a transaction that holds one alert already. -/
theorem internal_log_alert_witness :
    error_lines (internal_log sample_host sample_request (some (sample_config 4))
        { sample_msr 4 with is_relevant := 1, alerts := ["first".toList] } 2
        "second".toList).2
        = [error_log_line sample_host sample_request (log_str1 "second".toList)]
      ∧ (internal_log sample_host sample_request (some (sample_config 4))
          { sample_msr 4 with is_relevant := 1, alerts := ["first".toList] } 2
          "second".toList).1.is_relevant = 1 + 1
      ∧ (internal_log sample_host sample_request (some (sample_config 4))
          { sample_msr 4 with is_relevant := 1, alerts := ["first".toList] } 2
          "second".toList).1.alerts = ["first".toList] ++ [log_str1 "second".toList] :=
  internal_log_alert sample_host sample_request (some (sample_config 4))
    { sample_msr 4 with is_relevant := 1, alerts := ["first".toList] } 2 "second".toList
    (by decide)

theorem internal_log_debug_line (h : Host) (r : request_rec) (dcfg : Option directory_config)
    (msr : modsec_rec) (level : Int) (text : Str) :
    debug_writes (internal_log h r dcfg msr level text).2 = debug_line h r dcfg level text := by
  unfold internal_log debug_line
  cases hfd : debuglog_fd_of dcfg with
  | none =>
    by_cases h3 : level > 3
    · simp [h3, debug_writes]
    · simp [h3, debug_writes]
      split <;> simp
  | some fd =>
    by_cases h3 : level > 3 <;> by_cases hl : level ≤ filter_debug_level h dcfg
    · have : ¬ (level > filter_debug_level h dcfg) := by omega
      have h4 : ¬ level ≤ 3 := by omega
      simp [h3, hl, this, h4, debug_writes]
    · have : (level > filter_debug_level h dcfg) := by omega
      simp [h3, hl, this, debug_writes]
    · simp [h3, hl, debug_writes]
      split <;> simp
    · simp [h3, hl, debug_writes]
      split <;> simp

theorem msr_log_debug_writes (h : Host) (m : modsec_rec) (level : Int) (text : Str) :
    debug_writes (msr_log h m level text).2 = debug_line h m.r (some m.txcfg) level text :=
  internal_log_debug_line h m.r (some m.txcfg) m level text

theorem msr_log_error_lines (h : Host) (m : modsec_rec) (level : Int) (text : Str) :
    error_lines (msr_log h m level text).2
      = if level ≤ 3 then [error_log_line h m.r (log_str1 text)] else [] := by
  unfold msr_log internal_log
  by_cases h3 : level ≤ 3
  · have hn : ¬ (level > 3) := by omega
    simp only [hn, false_and, if_false, h3, if_true]
    cases debuglog_fd_of (some m.txcfg) with
    | none => simp [error_lines]
    | some fd =>
      by_cases hl : level ≤ filter_debug_level h (some m.txcfg) <;> simp [error_lines, hl]
  · have hp : level > 3 := by omega
    simp only [h3, if_false, hp, true_and]
    split
    · simp [error_lines]
    · cases debuglog_fd_of (some m.txcfg) with
      | none => simp [error_lines]
      | some fd =>
        by_cases hl : level ≤ filter_debug_level h (some m.txcfg) <;> simp [error_lines, hl]

theorem msr_log_step_events (h : Host) (m : modsec_rec) (level : Int) (text : Str) :
    step_events (msr_log h m level text).2 = [] := by
  unfold msr_log internal_log
  simp only []
  split
  · simp [step_events]
  · cases debuglog_fd_of (some m.txcfg) with
    | none => split <;> simp [step_events]
    | some fd =>
      by_cases hl : level ≤ filter_debug_level h (some m.txcfg) <;>
        split <;> simp [step_events, hl]

theorem msr_log_record (h : Host) (m : modsec_rec) (level : Int) (text : Str) :
    (msr_log h m level text).1
      = if level ≤ 3 then
          { m with is_relevant := m.is_relevant + 1, alerts := m.alerts ++ [log_str1 text] }
        else m := by
  unfold msr_log internal_log
  by_cases h3 : level ≤ 3
  · have hn : ¬ (level > 3) := by omega
    simp only [hn, false_and, if_false, h3, if_true, log_str1_cstr]
  · have hp : level > 3 := by omega
    simp only [h3, if_false, hp, true_and]
    split <;> rfl

theorem debug_writes_append (a b : List Event) :
    debug_writes (a ++ b) = debug_writes a ++ debug_writes b := by
  simp [debug_writes]

theorem error_lines_append (a b : List Event) :
    error_lines (a ++ b) = error_lines a ++ error_lines b := by
  simp [error_lines]

theorem step_events_append (a b : List Event) :
    step_events (a ++ b) = step_events a ++ step_events b := by
  simp [step_events]

/-! ## The command runner: first line of the output -/

theorem cstr_strip_lines (l : Str) :
    cstr (strip_lines l) = l.takeWhile (fun c => c != LF && c != NUL) := by
  induction l with
  | nil => rfl
  | cons c rest ih =>
    unfold strip_lines
    by_cases h0 : c = NUL
    · subst h0
      simp [cstr, List.takeWhile_cons]
    · by_cases h1 : c = LF
      · subst h1
        simp only [h0, if_false, if_true]
        simp [cstr, List.takeWhile_cons]
      · have e : cstr (c :: strip_lines rest) = c :: cstr (strip_lines rest) := by
          simp [cstr, List.takeWhile_cons, h0]
        simp only [h0, h1, if_false, e, ih]
        simp [List.takeWhile_cons, h0, h1]

theorem takeWhile_append_nul (data : Str) (n : Nat) :
    (data ++ List.replicate n NUL).takeWhile (fun c => c != LF && c != NUL)
      = data.takeWhile (fun c => c != LF && c != NUL) := by
  induction data with
  | nil => cases n <;> simp [List.replicate, List.takeWhile_cons]
  | cons c rest ih =>
    by_cases hc : (c != LF && c != NUL) = true
    · simp only [List.cons_append, List.takeWhile_cons, hc, if_true, ih]
    · simp only [List.cons_append, List.takeWhile_cons, hc]
      simp

theorem first_line_eq (data : Str) :
    first_line data = data.takeWhile (fun c => c != LF && c != NUL) := by
  unfold first_line exec_buf
  rw [cstr_strip_lines, takeWhile_append_nul]

theorem apache2_exec_read_ok (h : Host) (x : exec_results) (msr : modsec_rec) (command : Str)
    (argv : Option (List Str)) (output : Option (Option Str)) (env : List Str) (data : Str)
    (rest : List (Int × Str))
    (henv : h.ap_create_environment (exec_subprocess_env h command msr.r.subprocess_env)
      = some env)
    (hp : x.procnew = true) (ha : x.procattr = true) (hc : x.proc_create_rc = APR_SUCCESS)
    (ho : x.script_out = true) (hr : x.reads = (APR_SUCCESS, data) :: rest) :
    (apache2_exec h x msr command argv output).ret = 1
      ∧ (apache2_exec h x msr command argv output).output
          = output.map (fun _ => some (first_line (data.take 255))) := by
  unfold apache2_exec
  simp only [henv, hp, ha, hc, ho, hr, apr_file_read]
  cases output <;> simp

/-- C4 (amended): when every step up to the first read succeeds and that read
stores `data` (of which at most 255 bytes are kept), `apache2_exec` returns 1
and stores in `*output` the captured bytes that come before the first byte
that is `0x0a` or `0x00`: the whole capture when it holds neither. -/
theorem apache2_exec_first_line (h : Host) (x : exec_results) (msr : modsec_rec)
    (command : Str) (argv : Option (List Str)) (v : Option Str) (env : List Str) (data : Str)
    (rest : List (Int × Str))
    (henv : h.ap_create_environment (exec_subprocess_env h command msr.r.subprocess_env)
      = some env)
    (hp : x.procnew = true) (ha : x.procattr = true) (hc : x.proc_create_rc = APR_SUCCESS)
    (ho : x.script_out = true) (hr : x.reads = (APR_SUCCESS, data) :: rest) :
    (apache2_exec h x msr command argv (some v)).ret = 1
      ∧ (apache2_exec h x msr command argv (some v)).output
          = some (some ((data.take 255).takeWhile (fun c => c != LF && c != NUL)))
      ∧ ((∀ c ∈ data.take 255, c ≠ LF ∧ c ≠ NUL) →
          (apache2_exec h x msr command argv (some v)).output = some (some (data.take 255))) := by
  have k := apache2_exec_read_ok h x msr command argv (some v) env data rest henv hp ha hc ho hr
  rw [first_line_eq] at k
  refine ⟨k.1, k.2, ?_⟩
  intro hall
  rw [k.2]
  have e : (data.take 255).takeWhile (fun c => c != LF && c != NUL) = data.take 255 := by
    rw [List.takeWhile_eq_self_iff]
    intro c hcm
    have := hall c hcm
    simp [this.1, this.2]
  simp [e]

/-- The capture `hello\nworld\n` gives `hello` and the return value 1. -/
theorem apache2_exec_first_line_witness :
    (apache2_exec sample_host
        (sample_exec [(APR_SUCCESS, "hello".toList ++ [LF] ++ "world".toList ++ [LF])])
        (sample_msr 0) "/bin/echo".toList none (some none)).ret = 1
      ∧ (apache2_exec sample_host
          (sample_exec [(APR_SUCCESS, "hello".toList ++ [LF] ++ "world".toList ++ [LF])])
          (sample_msr 0) "/bin/echo".toList none (some none)).output
          = some (some "hello".toList) :=
  have k := apache2_exec_first_line sample_host
    (sample_exec [(APR_SUCCESS, "hello".toList ++ [LF] ++ "world".toList ++ [LF])])
    (sample_msr 0) "/bin/echo".toList none none _
    ("hello".toList ++ [LF] ++ "world".toList ++ [LF]) [] rfl rfl rfl rfl rfl rfl
  ⟨k.1, k.2.1⟩

/-- C4 (counterexample): a capture of the five bytes `a b 0x00 c d` holds no
line terminator, yet `*output` is `ab`, not the whole capture. -/
theorem apache2_exec_output_stops_at_nul :
    LF ∉ ['a', 'b', NUL, 'c', 'd']
      ∧ (apache2_exec sample_host (sample_exec [(APR_SUCCESS, ['a', 'b', NUL, 'c', 'd'])])
          (sample_msr 0) "/bin/echo".toList none (some none)).output = some (some ['a', 'b'])
      ∧ (apache2_exec sample_host (sample_exec [(APR_SUCCESS, ['a', 'b', NUL, 'c', 'd'])])
          (sample_msr 0) "/bin/echo".toList none (some none)).output
          ≠ some (some ['a', 'b', NUL, 'c', 'd']) := by
  have k := apache2_exec_read_ok sample_host
    (sample_exec [(APR_SUCCESS, ['a', 'b', NUL, 'c', 'd'])])
    (sample_msr 0) "/bin/echo".toList none (some none) _
    ['a', 'b', NUL, 'c', 'd'] [] rfl rfl rfl rfl rfl rfl
  rw [k.2, first_line_eq]
  decide

/-! ## The command runner: failure points -/

theorem error_lines_soak_up (reads : List (Int × Str)) : error_lines (soak_up reads) = [] := by
  induction reads with
  | nil => rfl
  | cons a rest ih =>
    obtain ⟨rc, d⟩ := a
    unfold soak_up
    by_cases hrc : rc = APR_SUCCESS
    · simp only [hrc, if_true]
      have e : error_lines (Event.file_read :: soak_up rest) = error_lines (soak_up rest) := by
        simp [error_lines]
      rw [e, ih]
    · simp only [hrc, if_false]
      rfl

/-- C5: at each of the six failure points (environment, process record,
process attributes, spawn, output pipe, first read) `apache2_exec` returns -1,
leaves the caller's `*output` as it was, runs exactly the APR calls that come
before the failing step and none after it, and logs exactly one message at
alert severity 1, naming the step: exactly one line in the Apache error log
and one more alert.  The debug log receives what that severity-1 call writes
there, after the severity-9 trace of the command when the failure is at the
spawn or later and the debug level is at least 9.  When no step fails the
call returns 1 and logs nothing at alert severity. -/
theorem apache2_exec_failure_points (h : Host) (x : exec_results) (msr : modsec_rec)
    (command : Str) (argv : Option (List Str)) (output : Option (Option Str)) :
    (h.ap_create_environment (exec_subprocess_env h command msr.r.subprocess_env) = none →
        exec_failed_with h command msr output (apache2_exec h x msr command argv output)
          "Exec: Unable to create environment.".toList [] [])
      ∧ (∀ env : List Str,
        h.ap_create_environment (exec_subprocess_env h command msr.r.subprocess_env) = some env →
        (x.procnew = false →
          exec_failed_with h command msr output (apache2_exec h x msr command argv output)
            ("Exec: Unable to allocate ".toList ++ fmt_d h.sizeof_proc ++ " bytes.".toList) [] [])
        ∧ (x.procnew = true → x.procattr = false →
          exec_failed_with h command msr output (apache2_exec h x msr command argv output)
            "Exec: Unable to create procattr.".toList [] [])
        ∧ (x.procnew = true → x.procattr = true → x.proc_create_rc ≠ APR_SUCCESS →
          exec_failed_with h command msr output (apache2_exec h x msr command argv output)
            ("Exec: Execution failed: ".toList ++ fmt_s (h.log_escape_nq (some command))
              ++ " (".toList ++ fmt_s (get_apr_error h x.proc_create_rc) ++ ")".toList)
            [Event.procattr_io_set, Event.procattr_cmdtype_set,
              Event.proc_create command (argv.getD [command]) env]
            (exec_trace h command msr))
        ∧ (x.procnew = true → x.procattr = true → x.proc_create_rc = APR_SUCCESS →
          x.script_out = false →
          exec_failed_with h command msr output (apache2_exec h x msr command argv output)
            "Exec: Failed to get script output pipe.".toList
            [Event.procattr_io_set, Event.procattr_cmdtype_set,
              Event.proc_create command (argv.getD [command]) env, Event.pool_note_subprocess]
            (exec_trace h command msr))
        ∧ (x.procnew = true → x.procattr = true → x.proc_create_rc = APR_SUCCESS →
          x.script_out = true → (apr_file_read x.reads).1 ≠ APR_SUCCESS →
          exec_failed_with h command msr output (apache2_exec h x msr command argv output)
            ("Exec: Execution failed while reading output: ".toList
              ++ fmt_s (h.log_escape_nq (some command))
              ++ " (".toList ++ fmt_s (get_apr_error h (apr_file_read x.reads).1) ++ ")".toList)
            [Event.procattr_io_set, Event.procattr_cmdtype_set,
              Event.proc_create command (argv.getD [command]) env, Event.pool_note_subprocess,
              Event.file_pipe_timeout_set msr.r.server_timeout, Event.file_read]
            (exec_trace h command msr))
        ∧ (x.procnew = true → x.procattr = true → x.proc_create_rc = APR_SUCCESS →
          x.script_out = true → (apr_file_read x.reads).1 = APR_SUCCESS →
          (apache2_exec h x msr command argv output).ret = 1
            ∧ error_lines (apache2_exec h x msr command argv output).events = []
            ∧ (apache2_exec h x msr command argv output).msr.alerts = msr.alerts
            ∧ (apache2_exec h x msr command argv output).msr.is_relevant = msr.is_relevant)) := by
  have e4 : ¬ ((4 : Int) ≤ 3) := by decide
  have e9 : ¬ ((9 : Int) ≤ 3) := by decide
  refine ⟨?_, ?_⟩
  · intro h1
    unfold apache2_exec exec_failed_with
    simp only [h1]
    simp [msr_log_record, msr_log_error_lines, msr_log_debug_writes, msr_log_step_events,
      exec_msr]
  · intro env h1
    refine ⟨?_, ?_, ?_, ?_, ?_, ?_⟩
    · intro h2
      unfold apache2_exec exec_failed_with
      simp only [h1, h2]
      simp [msr_log_record, msr_log_error_lines, msr_log_debug_writes, msr_log_step_events,
        exec_msr]
    · intro h2 h3
      unfold apache2_exec exec_failed_with
      simp only [h1, h2, h3]
      simp [msr_log_record, msr_log_error_lines, msr_log_debug_writes, msr_log_step_events,
        exec_msr]
    · intro h2 h3 h4
      unfold apache2_exec exec_failed_with exec_trace
      simp only [h1, h2, h3, h4, ne_eq, not_true, not_false_eq_true, if_true, if_false,
        Bool.false_eq_true]
      by_cases h9 : msr.txcfg.debuglog_level ≥ 9 <;> cases argv <;>
        simp only [h9, if_true, if_false, debug_writes_append, error_lines_append,
          step_events_append, msr_log_error_lines, msr_log_debug_writes, msr_log_step_events,
          msr_log_record] <;>
        simp [exec_msr, step_events, debug_writes, error_lines]
    · intro h2 h3 h4 h5
      unfold apache2_exec exec_failed_with exec_trace
      simp only [h1, h2, h3, h4, h5, ne_eq, not_true, not_false_eq_true, if_true, if_false,
        Bool.false_eq_true]
      by_cases h9 : msr.txcfg.debuglog_level ≥ 9 <;> cases argv <;>
        simp only [h9, if_true, if_false, debug_writes_append, error_lines_append,
          step_events_append, msr_log_error_lines, msr_log_debug_writes, msr_log_step_events,
          msr_log_record] <;>
        simp [exec_msr, step_events, debug_writes, error_lines]
    · intro h2 h3 h4 h5 h6
      unfold apache2_exec exec_failed_with exec_trace
      simp only [h1, h2, h3, h4, h5, h6, ne_eq, not_true, not_false_eq_true, if_true, if_false,
        Bool.false_eq_true]
      by_cases h9 : msr.txcfg.debuglog_level ≥ 9 <;> cases argv <;>
        simp only [h9, if_true, if_false, debug_writes_append, error_lines_append,
          step_events_append, msr_log_error_lines, msr_log_debug_writes, msr_log_step_events,
          msr_log_record] <;>
        simp [exec_msr, step_events, debug_writes, error_lines]
    · intro h2 h3 h4 h5 h6
      unfold apache2_exec
      simp only [h1, h2, h3, h4, h5, h6, ne_eq, not_true, not_false_eq_true, if_true, if_false,
        Bool.false_eq_true]
      by_cases h9 : msr.txcfg.debuglog_level ≥ 9 <;>
        by_cases h44 : msr.txcfg.debuglog_level ≥ 4 <;>
        simp only [h9, h44, e4, e9, if_true, if_false, debug_writes_append, error_lines_soak_up, error_lines_append,
          step_events_append, msr_log_error_lines, msr_log_debug_writes, msr_log_step_events,
          msr_log_record] <;>
        simp [error_lines]

/-- A spawn that returns status 1, on a transaction with debug level 9. -/
theorem apache2_exec_failure_points_witness :
    exec_failed_with sample_host "/bin/echo".toList (sample_msr 9) (some none)
      (apache2_exec sample_host sample_spawn_failure (sample_msr 9) "/bin/echo".toList none
        (some none))
      ("Exec: Execution failed: ".toList ++ fmt_s (sample_host.log_escape_nq
          (some "/bin/echo".toList))
        ++ " (".toList ++ fmt_s (get_apr_error sample_host 1) ++ ")".toList)
      [Event.procattr_io_set, Event.procattr_cmdtype_set,
        Event.proc_create "/bin/echo".toList ["/bin/echo".toList]
          ["HOME=/".toList, "PATH_TRANSLATED=/bin/echo".toList, "REDIRECT_STATUS=302".toList]]
      (exec_trace sample_host "/bin/echo".toList (sample_msr 9)) :=
  ((apache2_exec_failure_points sample_host sample_spawn_failure (sample_msr 9)
    "/bin/echo".toList none (some none)).2 _ rfl).2.2.1 rfl rfl (by decide)

/-! ## `format_error_log_message` -/

/-- C6: for a present error message whose message text, when there is one,
can be escaped, `format_error_log_message` returns the concatenation, in the
order file, line, level, status, message, of the tag `[file "<escaped file>"] `
iff `file` is present, the tag `[line N] ` iff `line` is positive, the tag
`[level N] ` always, the tag `[status N] ` iff `status` is not zero, and the
escaped message iff `message` is present.  For a message that holds only
level 1 the result is exactly `[level 1] `. -/
theorem format_error_log_message_tags (h : Host) (em : error_message)
    (hm : ∀ m : Str, em.message = some m → h.log_escape_nq (some m) ≠ none) :
    format_error_log_message h (some em) = some (
        (match em.file with
          | some f =>
            "[file ".toList ++ [DQ] ++ fmt_s (h.log_escape (some f)) ++ [DQ] ++ "] ".toList
          | none => [])
        ++ (if 0 < em.line then "[line ".toList ++ fmt_d em.line ++ "] ".toList else [])
        ++ ("[level ".toList ++ fmt_d em.level ++ "] ".toList)
        ++ (if em.status = 0 then [] else "[status ".toList ++ fmt_d em.status ++ "] ".toList)
        ++ (match em.message with
          | some m => fmt_s (h.log_escape_nq (some m))
          | none => []))
      ∧ format_error_log_message h
          (some { file := none, line := 0, level := 1, status := 0, message := none })
        = some "[level 1] ".toList := by
  refine ⟨?_, rfl⟩
  obtain ⟨file, line, level, status, message⟩ := em
  cases message with
  | none =>
    cases file <;> by_cases hl : 0 < line <;> by_cases hs : status = 0 <;>
      simp [format_error_log_message, hl, hs]
  | some m =>
    have hne := hm m rfl
    cases hesc : h.log_escape_nq (some m) with
    | none => exact absurd hesc hne
    | some s =>
      cases file <;> by_cases hl : 0 < line <;> by_cases hs : status = 0 <;>
        simp [format_error_log_message, hl, hs, hesc, fmt_s]

/-- Every field present: all four tags and the message, in order. -/
theorem format_error_log_message_tags_witness :
    format_error_log_message sample_host (some sample_em)
      = some ("[file ".toList ++ [DQ] ++ "core.c".toList ++ [DQ]
          ++ "] [line 10] [level 2] [status 403] Access denied".toList) :=
  (format_error_log_message_tags sample_host sample_em
    (fun m _ => by simp [sample_host])).1

/-! ## The command runner: the subprocess environment -/

/-- C7 (amended): `apache2_exec` changes the request's `subprocess_env`.
After every call the table is the one before the call as extended by
`ap_add_cgi_vars` and `ap_add_common_vars`, followed by the two entries
`PATH_TRANSLATED = command` and `REDIRECT_STATUS = 302`; and when the
environment and the two APR records are created, the child is spawned with
the environment built from that extended table. -/
theorem apache2_exec_subprocess_env (h : Host) (x : exec_results) (msr : modsec_rec)
    (command : Str) (argv : Option (List Str)) (output : Option (Option Str)) :
    (apache2_exec h x msr command argv output).msr.r.subprocess_env
        = h.ap_add_common_vars (h.ap_add_cgi_vars msr.r.subprocess_env)
            ++ [("PATH_TRANSLATED".toList, command), ("REDIRECT_STATUS".toList, "302".toList)]
      ∧ (∀ env : List Str,
          h.ap_create_environment (h.ap_add_common_vars (h.ap_add_cgi_vars msr.r.subprocess_env)
            ++ [("PATH_TRANSLATED".toList, command), ("REDIRECT_STATUS".toList, "302".toList)])
            = some env →
          x.procnew = true → x.procattr = true →
          Event.proc_create command (argv.getD [command]) env
            ∈ (apache2_exec h x msr command argv output).events) := by
  have e4 : ¬ ((4 : Int) ≤ 3) := by decide
  have e9 : ¬ ((9 : Int) ≤ 3) := by decide
  have t : exec_subprocess_env h command msr.r.subprocess_env
      = h.ap_add_common_vars (h.ap_add_cgi_vars msr.r.subprocess_env)
        ++ [("PATH_TRANSLATED".toList, command), ("REDIRECT_STATUS".toList, "302".toList)] := by
    simp [exec_subprocess_env, apr_table_add]
  refine ⟨?_, ?_⟩
  · rw [← t]
    unfold apache2_exec
    simp only []
    cases h.ap_create_environment (exec_subprocess_env h command msr.r.subprocess_env) with
    | none => simp [msr_log_record]
    | some env =>
      by_cases h2 : x.procnew = true <;> by_cases h3 : x.procattr = true <;>
        by_cases h4 : x.proc_create_rc = APR_SUCCESS <;> by_cases h5 : x.script_out = true <;>
        by_cases h6 : (apr_file_read x.reads).1 = APR_SUCCESS <;>
        by_cases h9 : msr.txcfg.debuglog_level ≥ 9 <;>
        by_cases h44 : msr.txcfg.debuglog_level ≥ 4 <;>
        simp [h2, h3, h4, h5, h6, h9, h44, msr_log_record, e4, e9]
  · intro env h1 h2 h3
    rw [← t] at h1
    unfold apache2_exec
    simp only [h1, h2, h3]
    cases argv <;>
      by_cases h4 : x.proc_create_rc = APR_SUCCESS <;> by_cases h5 : x.script_out = true <;>
      by_cases h6 : (apr_file_read x.reads).1 = APR_SUCCESS <;>
      simp [h4, h5, h6]

/-- On the sample request the child is spawned with three variables. -/
theorem apache2_exec_subprocess_env_witness :
    Event.proc_create "/bin/echo".toList ["/bin/echo".toList]
        ["HOME=/".toList, "PATH_TRANSLATED=/bin/echo".toList, "REDIRECT_STATUS=302".toList]
      ∈ (apache2_exec sample_host (sample_exec []) (sample_msr 0) "/bin/echo".toList none
          none).events :=
  (apache2_exec_subprocess_env sample_host (sample_exec []) (sample_msr 0) "/bin/echo".toList
    none none).2 _ rfl rfl rfl

/-- C7 (counterexample): the request's `subprocess_env` holds one entry before
the call and three after it, on a host whose `ap_add_cgi_vars` and
`ap_add_common_vars` add nothing. -/
theorem apache2_exec_changes_subprocess_env :
    (sample_msr 0).r.subprocess_env = [("HOME".toList, "/".toList)]
      ∧ (apache2_exec sample_host (sample_exec []) (sample_msr 0) "/bin/echo".toList none
          none).msr.r.subprocess_env
        = [("HOME".toList, "/".toList), ("PATH_TRANSLATED".toList, "/bin/echo".toList),
            ("REDIRECT_STATUS".toList, "302".toList)]
      ∧ (apache2_exec sample_host (sample_exec []) (sample_msr 0) "/bin/echo".toList none
          none).msr.r.subprocess_env ≠ (sample_msr 0).r.subprocess_env := by
  decide

/-! ## `record_time_checkpoint` -/

theorem key_eq_self (k : Str) : key_eq k k = true := by
  simp [key_eq]

theorem apr_table_get_replace (t : apr_table_t) (k v : Str)
    (ht : t.any (fun e => key_eq e.1 k) = true) :
    apr_table_get (table_replace k v t) k = some v := by
  induction t with
  | nil => simp at ht
  | cons e rest ih =>
    unfold table_replace
    by_cases he : key_eq e.1 k = true
    · simp [he, apr_table_get, List.find?_cons]
    · have hr : rest.any (fun e => key_eq e.1 k) = true := by
        simpa [List.any_cons, he] using ht
      have := ih hr
      simp only [he]
      simpa [apr_table_get, List.find?_cons, he] using this

theorem apr_table_get_append (t : apr_table_t) (k v : Str)
    (ht : t.any (fun e => key_eq e.1 k) = false) :
    apr_table_get (t ++ [(k, v)]) k = some v := by
  induction t with
  | nil => simp [apr_table_get, List.find?_cons, key_eq_self]
  | cons e rest ih =>
    have he : key_eq e.1 k = false := by
      simp [List.any_cons] at ht
      exact ht.1
    have hr : rest.any (fun e => key_eq e.1 k) = false := by
      simp [List.any_cons] at ht
      simpa using ht.2
    have := ih hr
    simpa [apr_table_get, List.find?_cons, he] using this

theorem apr_table_get_set (t : apr_table_t) (k v : Str) :
    apr_table_get (apr_table_set t k v) k = some v := by
  unfold apr_table_set
  by_cases ht : t.any (fun e => key_eq e.1 k) = true
  · simp only [ht, if_true]
    exact apr_table_get_replace t k v ht
  · have hf : t.any (fun e => key_eq e.1 k) = false := by simpa using ht
    simp only [hf]
    exact apr_table_get_append t k v hf

theorem log_str2_request (h : Host) (r : request_rec) (notes : apr_table_t) (level : Int)
    (str1 : Str) : log_str2 h { r with notes := notes } level str1 = log_str2 h r level str1 := by
  rfl

/-- C8 (amended): for checkpoint number 1, 2 or 3, `record_time_checkpoint`
stores the absolute time `now` in that checkpoint.  The elapsed value
`now - request_time`, as decimal text in the 99-byte note buffer, is what is
published as the note `mod_security-time<n>` and what the severity-4 line
`Time #<n>: <elapsed>` reports; that line is logged when the debug level is at
least 4, and nothing is sent to the Apache error log. -/
theorem record_time_checkpoint_stores_now (h : Host) (msr : modsec_rec) (n : Int) (now : Int)
    (hn : n = 1 ∨ n = 2 ∨ n = 3) :
    time_checkpoint (record_time_checkpoint h msr n now).1 n = some now
      ∧ apr_table_get (record_time_checkpoint h msr n now).1.r.notes
          (apr_snprintf 99 ("mod_security-time".toList ++ fmt_d n))
        = some (apr_snprintf 99 (fmt_d (now - msr.request_time)))
      ∧ debug_writes (record_time_checkpoint h msr n now).2
        = (if msr.txcfg.debuglog_level ≥ 4 then
            debug_line h msr.r (some msr.txcfg) 4
              ("Time #".toList ++ fmt_d n ++ ": ".toList
                ++ apr_snprintf 99 (fmt_d (now - msr.request_time)))
          else [])
      ∧ error_lines (record_time_checkpoint h msr n now).2 = [] := by
  have e4 : ¬ ((4 : Int) ≤ 3) := by decide
  have en : cstr (apr_snprintf 99 (fmt_d (now - msr.request_time)))
      = apr_snprintf 99 (fmt_d (now - msr.request_time)) := cstr_idem _
  have d21 : ¬ ((2 : Int) = 1) := by decide
  have d31 : ¬ ((3 : Int) = 1) := by decide
  have d32 : ¬ ((3 : Int) = 2) := by decide
  rcases hn with hn | hn | hn <;> subst hn <;>
    by_cases h4 : msr.txcfg.debuglog_level ≥ 4 <;>
    simp only [record_time_checkpoint, store_checkpoint, checkpoint_note, checkpoint_note_name,
      h4, e4, d21, d31, d32, if_true, if_false, msr_log_record, msr_log_error_lines,
      msr_log_debug_writes, fmt_s, en] <;>
    simp [time_checkpoint, apr_table_get_set, debug_line, log_str2_request, debug_writes,
      error_lines]

/-- Checkpoint 2 taken at time 150 on a transaction started at time 100. -/
theorem record_time_checkpoint_stores_now_witness :
    time_checkpoint (record_time_checkpoint sample_host (sample_msr 4) 2 150).1 2 = some 150
      ∧ apr_table_get (record_time_checkpoint sample_host (sample_msr 4) 2 150).1.r.notes
          "mod_security-time2".toList = some "50".toList
      ∧ debug_writes (record_time_checkpoint sample_host (sample_msr 4) 2 150).2
        = [log_str2 sample_host sample_request 4 "Time #2: 50".toList]
      ∧ error_lines (record_time_checkpoint sample_host (sample_msr 4) 2 150).2 = [] :=
  record_time_checkpoint_stores_now sample_host (sample_msr 4) 2 150 (Or.inr (Or.inl rfl))

/-- C8 (counterexample): on a transaction started at time 100, checkpoint 1
taken at time 150 is stored as 150, while the elapsed time, published as the
note, is 50. -/
theorem record_time_checkpoint_not_elapsed :
    (sample_msr 4).request_time = 100
      ∧ time_checkpoint (record_time_checkpoint sample_host (sample_msr 4) 1 150).1 1 = some 150
      ∧ time_checkpoint (record_time_checkpoint sample_host (sample_msr 4) 1 150).1 1
        ≠ some (150 - (sample_msr 4).request_time)
      ∧ apr_table_get (record_time_checkpoint sample_host (sample_msr 4) 1 150).1.r.notes
          "mod_security-time1".toList = some "50".toList := by
  decide

/-- C9: for a checkpoint number other than 1, 2 and 3, `record_time_checkpoint`
leaves the three stored checkpoints and the request's notes as they were and
logs exactly one message, at severity 1: one line in the Apache error log,
one more alert, and in the debug log what one severity-1 call writes. -/
theorem record_time_checkpoint_unknown (h : Host) (msr : modsec_rec) (n : Int) (now : Int)
    (hn : n ≠ 1 ∧ n ≠ 2 ∧ n ≠ 3) :
    (record_time_checkpoint h msr n now).1.time_checkpoint_1 = msr.time_checkpoint_1
      ∧ (record_time_checkpoint h msr n now).1.time_checkpoint_2 = msr.time_checkpoint_2
      ∧ (record_time_checkpoint h msr n now).1.time_checkpoint_3 = msr.time_checkpoint_3
      ∧ (record_time_checkpoint h msr n now).1.r.notes = msr.r.notes
      ∧ error_lines (record_time_checkpoint h msr n now).2
        = [error_log_line h msr.r
            (log_str1 ("Internal Error: Unknown checkpoint: ".toList ++ fmt_d n))]
      ∧ debug_writes (record_time_checkpoint h msr n now).2
        = debug_line h msr.r (some msr.txcfg) 1
            ("Internal Error: Unknown checkpoint: ".toList ++ fmt_d n)
      ∧ (record_time_checkpoint h msr n now).1.alerts
        = msr.alerts ++ [log_str1 ("Internal Error: Unknown checkpoint: ".toList ++ fmt_d n)]
      ∧ (record_time_checkpoint h msr n now).1.is_relevant = msr.is_relevant + 1 := by
  obtain ⟨n1, n2, n3⟩ := hn
  simp only [record_time_checkpoint, store_checkpoint, n1, n2, n3, if_false, msr_log_record,
    msr_log_error_lines, msr_log_debug_writes]
  simp

/-- Checkpoint number 4 on a fresh transaction. -/
theorem record_time_checkpoint_unknown_witness :
    (record_time_checkpoint sample_host (sample_msr 4) 4 150).1.time_checkpoint_1 = 0
      ∧ (record_time_checkpoint sample_host (sample_msr 4) 4 150).1.time_checkpoint_2 = 0
      ∧ (record_time_checkpoint sample_host (sample_msr 4) 4 150).1.time_checkpoint_3 = 0
      ∧ (record_time_checkpoint sample_host (sample_msr 4) 4 150).1.r.notes = []
      ∧ error_lines (record_time_checkpoint sample_host (sample_msr 4) 4 150).2
        = [error_log_line sample_host sample_request
            "Internal Error: Unknown checkpoint: 4".toList]
      ∧ debug_writes (record_time_checkpoint sample_host (sample_msr 4) 4 150).2
        = [log_str2 sample_host sample_request 1 "Internal Error: Unknown checkpoint: 4".toList]
      ∧ (record_time_checkpoint sample_host (sample_msr 4) 4 150).1.alerts
        = ["Internal Error: Unknown checkpoint: 4".toList]
      ∧ (record_time_checkpoint sample_host (sample_msr 4) 4 150).1.is_relevant = 1 :=
  record_time_checkpoint_unknown sample_host (sample_msr 4) 4 150
    ⟨by decide, by decide, by decide⟩

/-! ## `send_error_bucket` -/

/-- C10: `send_error_bucket` on a present transaction returns with
`is_relevant` at least 1.  When `is_relevant` was 0 on entry the call logs
exactly one message, the severity-1 alert `Internal error: Issuing "<status
line>" for unspecified error.`: one line in the Apache error log, what one
severity-1 call writes in the debug log, one more alert, and `is_relevant`
becomes 1.  When it was not 0 the call logs nothing and returns the record
as it was. -/
theorem send_error_bucket_relevant (h : Host) (b : bucket_results) (m : modsec_rec)
    (fr : request_rec) (status : Int) :
    ∃ m2 : modsec_rec,
      (send_error_bucket h b (some m) fr status).msr = some m2
        ∧ 1 ≤ m2.is_relevant
        ∧ (if m.is_relevant = 0 then
            error_lines (send_error_bucket h b (some m) fr status).events
                = [error_log_line h m.r (log_str1 ("Internal error: Issuing ".toList ++ [DQ]
                    ++ fmt_s (h.ap_get_status_line status) ++ [DQ]
                    ++ " for unspecified error.".toList))]
              ∧ debug_writes (send_error_bucket h b (some m) fr status).events
                = debug_line h m.r (some m.txcfg) 1 ("Internal error: Issuing ".toList ++ [DQ]
                    ++ fmt_s (h.ap_get_status_line status) ++ [DQ]
                    ++ " for unspecified error.".toList)
              ∧ m2.alerts = m.alerts ++ [log_str1 ("Internal error: Issuing ".toList ++ [DQ]
                    ++ fmt_s (h.ap_get_status_line status) ++ [DQ]
                    ++ " for unspecified error.".toList)]
              ∧ m2.is_relevant = 1
          else
            error_lines (send_error_bucket h b (some m) fr status).events = []
              ∧ debug_writes (send_error_bucket h b (some m) fr status).events = []
              ∧ m2 = m) := by
  by_cases h0 : m.is_relevant = 0
  · refine ⟨(msr_log h m 1 ("Internal error: Issuing ".toList ++ [DQ]
      ++ fmt_s (h.ap_get_status_line status) ++ [DQ]
      ++ " for unspecified error.".toList)).1, ?_, ?_, ?_⟩
    · unfold send_error_bucket
      simp only [h0, if_true]
      cases b.brigade <;> cases b.error_bucket <;> cases b.eos_bucket <;> simp
    · simp [msr_log_record]
    · simp only [h0, if_true]
      unfold send_error_bucket
      simp only [h0, if_true]
      cases b.brigade <;> cases b.error_bucket <;> cases b.eos_bucket <;>
        simp only [Bool.false_eq_true, not_false_eq_true, not_true, if_true, if_false,
          debug_writes_append, error_lines_append, msr_log_record, msr_log_error_lines,
          msr_log_debug_writes] <;>
        simp [h0, debug_writes, error_lines]
  · refine ⟨m, ?_, by omega, ?_⟩
    · unfold send_error_bucket
      simp only [h0, if_false]
      cases b.brigade <;> cases b.error_bucket <;> cases b.eos_bucket <;> simp
    · simp only [h0, if_false]
      unfold send_error_bucket
      simp only [h0, if_false]
      cases b.brigade <;> cases b.error_bucket <;> cases b.eos_bucket <;>
        simp [debug_writes, error_lines]

/-! ## Newline termination of debug log lines -/

theorem cstr_no_nul (s : Str) : NUL ∉ cstr s := by
  intro hmem
  have := List.mem_takeWhile_imp hmem
  simp at this

theorem cstr_eq_self (s : Str) (hs : NUL ∉ s) : cstr s = s := by
  unfold cstr
  rw [List.takeWhile_eq_self_iff]
  intro c hc
  have : c ≠ NUL := fun e => hs (e ▸ hc)
  simp [this]

theorem digitChar_ne_nul (n : Nat) (hn : n < 10) : Nat.digitChar n ≠ NUL := by
  interval_cases n <;> decide

theorem toDigitsCore_no_nul (fuel : Nat) : ∀ (n : Nat) (ds : List Char), NUL ∉ ds →
    NUL ∉ Nat.toDigitsCore 10 fuel n ds := by
  induction fuel with
  | zero => intro n ds hds; simpa [Nat.toDigitsCore] using hds
  | succ f ih =>
    intro n ds hds
    have hd : NUL ∉ Nat.digitChar (n % 10) :: ds := by
      intro hm
      rcases List.mem_cons.mp hm with e | e
      · exact digitChar_ne_nul _ (Nat.mod_lt _ (by decide)) e.symm
      · exact hds e
    unfold Nat.toDigitsCore
    simp only []
    split_ifs
    · exact hd
    · exact ih _ _ hd

theorem fmt_d_no_nul (i : Int) : NUL ∉ fmt_d i := by
  unfold fmt_d
  cases i with
  | ofNat m =>
    show NUL ∉ (Nat.repr m).toList
    simp only [Nat.repr, Nat.toDigits, List.asString, String.toList]
    exact toDigitsCore_no_nul _ _ _ (by simp)
  | negSucc m =>
    show NUL ∉ ("-" ++ Nat.repr (Nat.succ m)).toList
    simp only [Nat.repr, Nat.toDigits, List.asString, String.toList, String.data_append]
    intro hm
    rcases List.mem_append.mp hm with e | e
    · revert e; decide
    · exact toDigitsCore_no_nul _ _ _ (by simp) e

theorem fmt_s_no_nul (o : Option Str) : NUL ∉ fmt_s o := by
  cases o with
  | none => decide
  | some s => exact cstr_no_nul s

theorem debug_line_rendered_no_nul (h : Host) (r : request_rec) (level : Int) (text : Str)
    (hs : NUL ∉ r.server_ptr) (hr : NUL ∉ r.self_ptr) :
    NUL ∉ debug_line_rendered h r level (log_str1 text) := by
  have h1 := fmt_s_no_nul h.current_logtime
  have h2 := fmt_s_no_nul r.server_name
  have h3 := fmt_d_no_nul level
  have h4 : NUL ∉ log_str1 text := cstr_no_nul _
  have h5 : NUL ∉ (match r.uri with
      | none => []
      | some u => fmt_s (h.log_escape_nq (some u))) := by
    cases r.uri with
    | none => simp
    | some u => exact fmt_s_no_nul _
  have n0 : NUL ≠ '[' := by decide
  have n1 : NUL ≠ ']' := by decide
  have n2 : NUL ≠ ' ' := by decide
  have n3 : NUL ≠ '/' := by decide
  have n4 : NUL ≠ 's' := by decide
  have n5 : NUL ≠ 'i' := by decide
  have n6 : NUL ≠ 'd' := by decide
  have n7 : NUL ≠ '#' := by decide
  have n8 : NUL ≠ 'r' := by decide
  have n9 : NUL ≠ LF := by decide
  unfold debug_line_rendered
  simp only [List.mem_append, String.toList, List.mem_cons, List.mem_singleton, List.not_mem_nil,
    not_or]
  simp [h1, h2, h3, h4, h5, hs, hr, n0, n1, n2, n3, n4, n5, n6, n7, n8, n9]

theorem log_str2_eq_take (h : Host) (r : request_rec) (level : Int) (text : Str)
    (hs : NUL ∉ r.server_ptr) (hr : NUL ∉ r.self_ptr) :
    log_str2 h r level (log_str1 text)
      = (debug_line_rendered h r level (log_str1 text)).take 1255 := by
  unfold log_str2 apr_snprintf
  apply cstr_eq_self
  intro hm
  exact debug_line_rendered_no_nul h r level text hs hr (List.mem_of_mem_take hm)

theorem log_str1_length (text : Str) : (log_str1 text).length ≤ 1023 := by
  unfold log_str1 apr_snprintf cstr
  have h1 := (List.takeWhile_sublist (fun c => c != NUL) (l := text.take (1024 - 1))).length_le
  have h2 := List.length_take_le (1024 - 1) text
  omega

/-- The composed line fits the 1256-byte buffer whenever the text before the
body (timestamp, server name, pointers, path, level) takes at most 231 bytes,
however long the message body is. -/
theorem debug_line_rendered_fits (h : Host) (r : request_rec) (level : Int) (text : Str)
    (hh : (debug_line_rendered h r level []).length ≤ 232) :
    (debug_line_rendered h r level (log_str1 text)).length ≤ 1255 := by
  have hb := log_str1_length text
  unfold debug_line_rendered at hh ⊢
  simp only [List.length_append, List.length_nil, List.length_singleton] at hh ⊢
  omega

/-- Lines that fit are newline-terminated: when the `%pp` renderings hold no
NUL byte and the composed line `[time] [server/sid#p][rid#p][path][level] body` with its
line terminator takes at most 1255 bytes, the text one log call writes to the
debug log is that whole line, and it ends with the newline character.  The
body may have been cut to the 1023 bytes of `str1`: only the length of the
composed line matters. -/
theorem internal_log_line_terminated (h : Host) (r : request_rec)
    (dcfg : Option directory_config) (msr : modsec_rec) (level : Int) (text : Str)
    (hs : NUL ∉ r.server_ptr) (hr : NUL ∉ r.self_ptr)
    (hlen : (debug_line_rendered h r level (log_str1 text)).length ≤ 1255) :
    (∀ line ∈ debug_writes (internal_log h r dcfg msr level text).2,
        line = debug_line_rendered h r level (log_str1 text) ∧ line.getLast? = some LF)
      ∧ (log_str2 h r level (log_str1 text)).getLast? = some LF := by
  have e : log_str2 h r level (log_str1 text) = debug_line_rendered h r level (log_str1 text) := by
    rw [log_str2_eq_take h r level text hs hr]
    exact List.take_of_length_le hlen
  have l : (debug_line_rendered h r level (log_str1 text)).getLast? = some LF := by
    unfold debug_line_rendered
    exact List.getLast?_concat _
  refine ⟨?_, by rw [e]; exact l⟩
  intro line hline
  rw [internal_log_debug_line] at hline
  unfold debug_line at hline
  split at hline
  · rw [List.mem_singleton] at hline
    rw [hline, e]
    exact ⟨rfl, l⟩
  · simp at hline

/-- A severity-1 call on the sample request: the line written ends with the
newline character. -/
theorem internal_log_line_terminated_witness :
    (∀ line ∈ debug_writes (internal_log sample_host sample_request (some (sample_config 4))
          (sample_msr 4) 1 "Access denied".toList).2,
        line = debug_line_rendered sample_host sample_request 1 (log_str1 "Access denied".toList)
          ∧ line.getLast? = some LF)
      ∧ (log_str2 sample_host sample_request 1 (log_str1 "Access denied".toList)).getLast?
        = some LF :=
  internal_log_line_terminated sample_host sample_request (some (sample_config 4)) (sample_msr 4)
    1 "Access denied".toList (by decide) (by decide) (by decide)

/-- C11 (failing input): for a request whose path is 1300 bytes long, the one
text a severity-1 call writes to the debug log is the first 1255 bytes of the
composed line: it ends with a byte of the path, not with the newline
character that the format of line 267 puts at the end of the line. -/
theorem internal_log_long_line_unterminated :
    debug_writes (internal_log sample_host sample_long_request (some (sample_config 4))
        (sample_msr 4) 1 "Access denied".toList).2
        = [log_str2 sample_host sample_long_request 1 (log_str1 "Access denied".toList)]
      ∧ (log_str2 sample_host sample_long_request 1 (log_str1 "Access denied".toList)).length
        = 1255
      ∧ (log_str2 sample_host sample_long_request 1 (log_str1 "Access denied".toList)).getLast?
        = some 'a'
      ∧ (log_str2 sample_host sample_long_request 1 (log_str1 "Access denied".toList)).getLast?
        ≠ some LF := by
  decide!

end ModSecurity
